import Mathlib

/-!
Verification development for the Track2Do snapshot/export orchestration core.

The definitions below are a shallow embedding of the TypeScript source:
  - `src/src/hooks/useSnapshots.ts` (snapshot engine: create/update/delete),
  - the preset manager class (`PresetManager`: pagination, name-uniqueness
    check, JSON import),
  - the export orchestration in `src/src/components/TrackList.tsx`
    (start-export validation, the status-polling loop of both the
    ExportDialog and the ExportPanel component, and user-initiated stop).

JavaScript strings are modelled as Lean `String` (case folding via
`String.toLower`, which agrees with `toLowerCase` on the ASCII names used
here), JS `undefined`-able values as `Option`, thrown exceptions as an
explicit `thrown` field, and the React state cell plus the persistence call
as explicit record fields threaded through each operation.
-/

namespace Track2Do

/-- ASCII case folding: the embedding of JavaScript `toLowerCase` on the
ASCII names this program handles. Defined by mapping `Char.toLower` over
the character list so that concrete instances reduce by `decide`/`rfl`
(`String.toLower` itself recurses by well-founded recursion on byte
positions, which the kernel does not evaluate). -/
def jsToLower (s : String) : String := String.mk (s.data.map Char.toLower)

/-- Track state embedded in a snapshot (src/src/types/index.ts, `TrackState`).
The `type` and `color` fields are carried as plain strings, as in the JSON
documents the store persists. -/
structure TrackState where
  trackId : String
  trackName : String
  is_soloed : Bool
  is_muted : Bool
  type : String
  color : Option String
  deriving Repr, DecidableEq

/-- A persisted snapshot (src/src/types/index.ts, `Snapshot`). `updatedAt`
is optional in the TypeScript interface, hence `Option`. -/
structure Snapshot where
  id : String
  name : String
  trackStates : List TrackState
  createdAt : String
  updatedAt : Option String
  deriving Repr, DecidableEq

/-- The caller-supplied part of a new snapshot: `Omit<Snapshot, 'id' |
'createdAt' | 'updatedAt'>` in `useSnapshots.ts`. -/
structure SnapshotData where
  name : String
  trackStates : List TrackState
  deriving Repr, DecidableEq

/-- Result of running one snapshot-store operation from `useSnapshots.ts`:
the in-memory collection afterwards, what (if anything) was handed to
`saveSnapshotsToStorage`, the message of a thrown `Error` (if any), and the
snapshot returned by `createSnapshot` (if any). -/
structure SnapshotOpResult where
  store : List Snapshot
  persisted : Option (List Snapshot)
  thrown : Option String
  created : Option Snapshot
  deriving Repr, DecidableEq

/-- `createSnapshot` from `useSnapshots.ts` (lines 36-58): throws when an
existing snapshot's name matches case-insensitively, otherwise appends a
fresh snapshot (fresh id `freshId`, both timestamps `now`) and persists the
new collection. -/
def createSnapshotRun (snapshots : List Snapshot) (d : SnapshotData)
    (freshId now : String) : SnapshotOpResult :=
  match snapshots.find? (fun s => jsToLower s.name == jsToLower d.name) with
  | some _ =>
      { store := snapshots, persisted := none
        thrown := some ("Snapshot name \"" ++ d.name ++
          "\" already exists, please use a different name")
        created := none }
  | none =>
      let newSnapshot : Snapshot :=
        { id := freshId, name := d.name, trackStates := d.trackStates
          createdAt := now, updatedAt := some now }
      let updatedSnapshots := snapshots ++ [newSnapshot]
      { store := updatedSnapshots, persisted := some updatedSnapshots
        thrown := none, created := some newSnapshot }

/-- The update object passed to `updateSnapshot` (`Partial<Snapshot>`
restricted to the fields the UI supplies: an optional new name and an
optional replacement track-state list). -/
structure SnapshotUpdates where
  name : Option String
  trackStates : Option (List TrackState)
  deriving Repr, DecidableEq

/-- The object spread `{ ...snapshot, ...updates, updatedAt: now }` applied
to the matching snapshot in `updateSnapshot`. -/
def applyUpdates (s : Snapshot) (u : SnapshotUpdates) (now : String) :
    Snapshot :=
  { s with name := u.name.getD s.name
           trackStates := u.trackStates.getD s.trackStates
           updatedAt := some now }

/-- `updateSnapshot` from `useSnapshots.ts` (lines 61-83). The duplicate
check runs only under `if (updates.name)`, i.e. when a name is supplied and
non-empty (JS truthiness); it throws when a snapshot with a DIFFERENT id
has the same lowercased name. Otherwise every snapshot whose id matches is
rewritten by the spread and the (possibly unchanged) collection is
persisted. There is no not-found branch in the source. -/
def updateSnapshotRun (snapshots : List Snapshot) (id : String)
    (u : SnapshotUpdates) (now : String) : SnapshotOpResult :=
  let dup :=
    match u.name with
    | some n =>
        if n == "" then none
        else snapshots.find? (fun (s : Snapshot) =>
          s.id != id && jsToLower s.name == jsToLower n)
    | none => none
  match dup with
  | some _ =>
      { store := snapshots, persisted := none
        thrown := some ("Snapshot name \"" ++ (u.name.getD "") ++
          "\" already exists, please use a different name")
        created := none }
  | none =>
      let updatedSnapshots := snapshots.map (fun (s : Snapshot) =>
        if s.id == id then applyUpdates s u now else s)
      { store := updatedSnapshots, persisted := some updatedSnapshots
        thrown := none, created := none }

end Track2Do

namespace Track2Do

/-! ### Preset Engine + Store (the `PresetManager` class) -/

/-- A persisted export preset (src/src/types/index.ts, `ExportPreset`).
The enum-typed fields (`file_format`, `mix_source_type`) are carried as
their string values, exactly as in the persisted JSON documents. -/
structure ExportPreset where
  id : String
  name : String
  file_format : String
  mix_source_name : String
  mix_source_type : String
  createdAt : String
  updatedAt : Option String
  deriving Repr, DecidableEq

/-- The string values of the `AudioFormat` enum (`Object.values(AudioFormat)`). -/
def audioFormatValues : List String := ["wav", "aiff"]

/-- The string values of the `MixSourceType` enum (`Object.values(MixSourceType)`). -/
def mixSourceTypeValues : List String := ["PhysicalOut", "Bus", "Output"]

/-- `PresetManager.isNameExists(name, excludeId?)`: reports a collision when
some stored preset has EXACTLY the given name (strict `===` comparison, no
case folding) and an id different from `excludeId` (when `excludeId` is
`undefined`, the id test `p.id !== excludeId` is always true). -/
def isNameExists (presets : List ExportPreset) (name : String)
    (excludeId : Option String) : Bool :=
  presets.any (fun (p : ExportPreset) =>
    p.name == name && some p.id != excludeId)

/-- The fixed page size `PRESETS_PER_PAGE` of the preset manager. -/
def PRESETS_PER_PAGE : Nat := 3

/-- Return value of `PresetManager.getPaginatedPresets`. -/
structure PaginatedPresets where
  presets : List ExportPreset
  totalPages : Nat
  currentPage : Nat
  totalCount : Nat
  deriving Repr, DecidableEq

/-- `PresetManager.getPaginatedPresets(page)`: `totalPages` is
`Math.ceil(totalCount / PRESETS_PER_PAGE)` (written in natural-number
arithmetic), and the returned slice is
`allPresets.slice((page-1)*PRESETS_PER_PAGE, page*PRESETS_PER_PAGE)`,
here for the pages `page >= 1` the component requests. -/
def getPaginatedPresets (allPresets : List ExportPreset) (page : Nat) :
    PaginatedPresets :=
  let totalCount := allPresets.length
  let totalPages := (totalCount + PRESETS_PER_PAGE - 1) / PRESETS_PER_PAGE
  let startIndex := (page - 1) * PRESETS_PER_PAGE
  { presets := (allPresets.drop startIndex).take PRESETS_PER_PAGE
    totalPages := totalPages, currentPage := page, totalCount := totalCount }

/-- One entry of a parsed preset-interchange JSON array, before validation.
JSON is dynamically shaped, so the fields `validatePreset` type-checks are
carried as `Option String` (`none` models a missing or non-string value);
the enum-valued fields are carried as raw strings, where an unrecognized
value models exactly the "unrecognized enum member" failure (any non-string
JSON value is likewise never a member of the enum value list). -/
structure RawPreset where
  id : String
  name : Option String
  file_format : String
  mix_source_name : Option String
  mix_source_type : String
  updatedAt : Option String
  deriving Repr, DecidableEq

/-- `PresetManager.validatePreset`: name is a string, `file_format` is a
recognized `AudioFormat` value, `mix_source_name` is a string,
`mix_source_type` is a recognized `MixSourceType` value. -/
def validatePreset (p : RawPreset) : Bool :=
  p.name.isSome && audioFormatValues.contains p.file_format &&
    p.mix_source_name.isSome && mixSourceTypeValues.contains p.mix_source_type

/-- The object built for a valid imported entry:
`{ ...preset, id: generateId(), createdAt: new Date().toISOString() }` —
a fresh id and creation timestamp; the imported id is discarded. -/
def materializePreset (p : RawPreset) (freshId now : String) : ExportPreset :=
  { id := freshId, name := p.name.getD "", file_format := p.file_format
    mix_source_name := p.mix_source_name.getD ""
    mix_source_type := p.mix_source_type
    createdAt := now, updatedAt := p.updatedAt }

/-- The `forEach` loop of `importPresetsFromFile`: walks the parsed entries
with their indices, materializing each valid entry with the next fresh id
from `genIds` and recording an error string for each invalid one. `idx` is
the current array index, `k` counts the fresh ids consumed so far. -/
def importScan (entries : List RawPreset) (idx k : Nat)
    (genIds : Nat → String) (now : String) :
    List ExportPreset × List String :=
  match entries with
  | [] => ([], [])
  | e :: rest =>
      if validatePreset e then
        let r := importScan rest (idx + 1) (k + 1) genIds now
        (materializePreset e (genIds k) now :: r.1, r.2)
      else
        let r := importScan rest (idx + 1) k genIds now
        (r.1, ("Invalid preset at index " ++ toString idx) :: r.2)

/-- Result of `importPresetsFromFile` after a successful JSON parse of a
top-level array, together with the preset collection afterwards. -/
structure ImportOutcome where
  success : Bool
  imported : Nat
  errors : List String
  store : List ExportPreset
  deriving Repr, DecidableEq

/-- `PresetManager.importPresetsFromFile` on a well-formed JSON array
`entries` (the parse and `Array.isArray` checks already passed): valid
entries are appended to the existing collection with fresh ids and
timestamps, invalid ones are reported by index; `success` and the
conditional save mirror `validPresets.length > 0`. -/
def importPresetsFromList (entries : List RawPreset)
    (existing : List ExportPreset) (genIds : Nat → String) (now : String) :
    ImportOutcome :=
  let r := importScan entries 0 0 genIds now
  { success := decide (0 < r.1.length)
    imported := r.1.length
    errors := r.2
    store := if 0 < r.1.length then existing ++ r.1 else existing }


/-! ### Export orchestration (TrackList.tsx: ExportDialog and ExportPanel) -/

/-- `ExportResult` (src/src/types/index.ts). -/
structure ExportResult where
  success : Bool
  exported_files : List String
  failed_snapshots : List String
  total_duration : Nat
  error_message : Option String
  deriving Repr, DecidableEq

/-- `ExportProgress` (src/src/types/index.ts): the task snapshot returned
by `getExportStatus`; `status` is an open string on the wire. -/
structure ExportProgress where
  task_id : String
  status : String
  progress : Nat
  current_snapshot : Nat
  total_snapshots : Nat
  current_snapshot_name : String
  created_at : String
  result : Option ExportResult
  deriving Repr, DecidableEq

/-- `ExportSettings` (src/src/types/index.ts); enum fields as their string
values. -/
structure ExportSettings where
  file_format : String
  mix_source_name : String
  mix_source_type : String
  online_export : Bool
  file_prefix : String
  output_path : String
  deriving Repr, DecidableEq

/-- ASCII whitespace trim: the embedding of JS `String.prototype.trim` on
the ASCII inputs this program handles, written over the character list so
concrete instances reduce by `decide`/`rfl`. -/
def jsTrim (s : String) : String :=
  String.mk (((s.data.dropWhile Char.isWhitespace).reverse.dropWhile
    Char.isWhitespace).reverse)

/-- Outcome of the validation prefix of `startExport`: either an error
message was set and the function returned, or execution reached the
`apiService.startExport` network call with the given payload. -/
inductive StartExportStep where
  | validationFailure (msg : String)
  | requestSent (snapshots : List Snapshot) (settings : ExportSettings)
  deriving Repr, DecidableEq

/-- The validation prefix shared verbatim by `startExport` in the
ExportDialog (TrackList.tsx lines 240-255) and in the ExportPanel (lines
735-754): empty selection, blank `output_path`, blank `mix_source_name` —
each sets an error and returns before `apiService.startExport` is called
(JS falsiness of a trimmed string is blankness). -/
def startExportPre (selectedSnapshots : List Snapshot)
    (settings : ExportSettings) : StartExportStep :=
  if selectedSnapshots.length = 0 then
    .validationFailure "Please select snapshots to export"
  else if jsTrim settings.output_path == "" then
    .validationFailure "Output Path is required"
  else if jsTrim settings.mix_source_name == "" then
    .validationFailure "Output Mix Source Name is required"
  else
    .requestSent selectedSnapshots settings

/-- Local export-flow state of either export component, together with the
two relevant facts of the event-loop environment: whether a
`setTimeout(poll, 1000)` is currently scheduled (`pollTimer`; the
ExportPanel retains the handle as `pollTimeoutId`, the ExportDialog does
not retain it at all) and whether a dispatched `getExportStatus` request is
awaiting its response (`inFlight`). -/
structure ExportUiState where
  isExporting : Bool
  error : Option String
  success : Bool
  exportProgress : Option ExportProgress
  pollTimer : Bool
  inFlight : Bool
  deriving Repr, DecidableEq

/-- The expression `response.data.result?.error_message || 'Error occurred
during export'` (JS `||` also replaces an empty message by the generic
one). -/
def failureMessage (d : ExportProgress) : String :=
  match d.result with
  | some r =>
      match r.error_message with
      | some m => if m == "" then "Error occurred during export" else m
      | none => "Error occurred during export"
  | none => "Error occurred during export"

/-- Body of the ExportPanel `poll` callback (TrackList.tsx lines 804-867)
on a response with `success && data`: replace `exportProgress` wholesale,
then branch on `data.status` in source order — `completed`;
`failed`/`completed_with_errors`; `running`/`pending` (schedule the next
poll); `cancelled`; otherwise set "Unknown export status: <value>" and
stop without scheduling. -/
def panelHandleStatus (st : ExportUiState) (d : ExportProgress) :
    ExportUiState :=
  let st := { st with exportProgress := some d, inFlight := false }
  if d.status == "completed" then
    { st with success := true, isExporting := false, pollTimer := false }
  else if d.status == "failed" || d.status == "completed_with_errors" then
    { st with error := some (failureMessage d), isExporting := false
              pollTimer := false }
  else if d.status == "running" || d.status == "pending" then
    { st with pollTimer := true }
  else if d.status == "cancelled" then
    { st with error := some "Export was cancelled", isExporting := false
              pollTimer := false }
  else
    { st with error := some ("Unknown export status: " ++ d.status)
              isExporting := false }

/-- Body of the ExportDialog `poll` callback (TrackList.tsx lines 282-313)
on a response with `success && data`: same branches as the panel, but no
timer handle is ever cleared and there is NO branch for an unrecognized
status — such a response falls through every `else if` leaving `error`,
`success` and `isExporting` untouched and scheduling nothing. -/
def dialogHandleStatus (st : ExportUiState) (d : ExportProgress) :
    ExportUiState :=
  let st := { st with exportProgress := some d, inFlight := false }
  if d.status == "completed" then
    { st with success := true, isExporting := false }
  else if d.status == "failed" || d.status == "completed_with_errors" then
    { st with error := some (failureMessage d), isExporting := false }
  else if d.status == "running" || d.status == "pending" then
    { st with pollTimer := true }
  else if d.status == "cancelled" then
    { st with error := some "Export was cancelled", isExporting := false }
  else
    st

/-- `stopPolling` (ExportPanel, TrackList.tsx lines 712-730): clear the
scheduled timer, invoke `stopExportTask` best-effort when a task id is
known (the returned flag records that the stop request was issued; its
failure is caught and logged), then set the manually-stopped state. An
already dispatched status request cannot be recalled, so `inFlight` is
untouched. -/
def panelStopPolling (st : ExportUiState) : ExportUiState × Bool :=
  let stopCalled :=
    match st.exportProgress with
    | some p => p.task_id != ""
    | none => false
  ({ st with pollTimer := false, isExporting := false
             error := some "Export manually stopped" }, stopCalled)

/-- `stopExport` (ExportDialog, TrackList.tsx lines 223-235): invoke
`stopExportTask` best-effort, set the manually-stopped state — and clear
NO timer: the dialog never retains the `setTimeout` handle, so a scheduled
poll stays scheduled. -/
def dialogStopExport (st : ExportUiState) : ExportUiState × Bool :=
  let stopCalled :=
    match st.exportProgress with
    | some p => p.task_id != ""
    | none => false
  ({ st with isExporting := false
             error := some "Export manually stopped" }, stopCalled)

/-- A scheduled poll timer firing: the `poll` callback runs and immediately
issues `apiService.getExportStatus(taskId)` (identical in both
components). The returned flag records that a `getExportStatus` network
call was issued by this step. -/
def timerFires (st : ExportUiState) : ExportUiState × Bool :=
  if st.pollTimer then
    ({ st with pollTimer := false, inFlight := true }, true)
  else
    (st, false)

/-- A pending `getExportStatus` response reaching the ExportPanel
handler. -/
def panelResponseArrives (st : ExportUiState) (d : ExportProgress) :
    ExportUiState :=
  if st.inFlight then panelHandleStatus st d else st

/-- A pending `getExportStatus` response reaching the ExportDialog
handler. -/
def dialogResponseArrives (st : ExportUiState) (d : ExportProgress) :
    ExportUiState :=
  if st.inFlight then dialogHandleStatus st d else st

/-- A case-insensitive duplicate of `d.name` exists in the store iff the
`find?` in `createSnapshotRun` succeeds. -/
theorem createSnapshot_find_spec (snapshots : List Snapshot)
    (d : SnapshotData) :
    (snapshots.find? (fun s => jsToLower s.name == jsToLower d.name)).isSome ↔
      ∃ s ∈ snapshots, jsToLower s.name = jsToLower d.name := by
  rw [List.find?_isSome]
  simp

/-- C3: createSnapshot with a name matching an existing snapshot's name
case-insensitively throws a duplicate-name error; the in-memory collection
is returned unchanged, nothing is persisted and no snapshot is created. -/
theorem C3_createSnapshot_duplicate_rejected (snapshots : List Snapshot)
    (d : SnapshotData) (freshId now : String)
    (hdup : ∃ s ∈ snapshots, jsToLower s.name = jsToLower d.name) :
    (createSnapshotRun snapshots d freshId now).thrown =
        some ("Snapshot name \"" ++ d.name ++
          "\" already exists, please use a different name") ∧
      (createSnapshotRun snapshots d freshId now).store = snapshots ∧
      (createSnapshotRun snapshots d freshId now).persisted = none ∧
      (createSnapshotRun snapshots d freshId now).created = none := by
  have hfind : (snapshots.find?
      (fun s => jsToLower s.name == jsToLower d.name)).isSome :=
    (createSnapshot_find_spec snapshots d).mpr hdup
  unfold createSnapshotRun
  rcases hsome : snapshots.find? (fun s => jsToLower s.name == jsToLower d.name)
    with _ | s
  · rw [hsome] at hfind; simp at hfind
  · simp [hsome]

/-- Mapping a function that fixes every element of a list leaves the list
unchanged. -/
theorem map_fixes_of_forall {α : Type} (l : List α) (f : α → α)
    (h : ∀ a ∈ l, f a = a) : l.map f = l := by
  induction l with
  | nil => rfl
  | cons x xs ih =>
      simp only [List.map_cons]
      rw [h x (List.mem_cons_self x xs), ih (fun a ha => h a (List.mem_cons_of_mem x ha))]

/-- C2 counterexample: `updateSnapshot` on an id that matches no snapshot
throws nothing at all — there is no NotFoundError branch in the source.
With a one-snapshot store and the unknown id "b", the call completes with
`thrown = none` (and the collection unchanged), refuting the claim that the
operation fails with an explicit error. -/
theorem C2_counterexample :
    (updateSnapshotRun
        [{ id := "a", name := "Drums", trackStates := []
           createdAt := "t0", updatedAt := none }]
        "b" { name := none, trackStates := none } "t1").thrown = none ∧
      (updateSnapshotRun
        [{ id := "a", name := "Drums", trackStates := []
           createdAt := "t0", updatedAt := none }]
        "b" { name := none, trackStates := none } "t1").store =
        [{ id := "a", name := "Drums", trackStates := []
           createdAt := "t0", updatedAt := none }] := by
  constructor <;> rfl

/-- C2 (amended): when the id matches no existing snapshot and the supplied
update carries no name that collides case-insensitively with a stored
snapshot's name, `updateSnapshot` raises no error and is a silent no-op:
the collection's contents are unchanged (the unchanged collection is
re-persisted as-is). -/
theorem C2_updateSnapshot_unknown_id_noop (snapshots : List Snapshot)
    (id : String) (u : SnapshotUpdates) (now : String)
    (hid : ∀ s ∈ snapshots, s.id ≠ id)
    (hname : ∀ n, u.name = some n →
      ∀ s ∈ snapshots, jsToLower s.name ≠ jsToLower n) :
    (updateSnapshotRun snapshots id u now).thrown = none ∧
      (updateSnapshotRun snapshots id u now).store = snapshots ∧
      (updateSnapshotRun snapshots id u now).persisted = some snapshots := by
  have hdup : (match u.name with
      | some n =>
          if n == "" then none
          else snapshots.find? (fun (s : Snapshot) =>
            s.id != id && jsToLower s.name == jsToLower n)
      | none => none) = (none : Option Snapshot) := by
    cases hu : u.name with
    | none => rfl
    | some n =>
        by_cases hempty : n == ""
        · simp [hempty]
        · have hf : (n == "") = false := by simpa using hempty
          simp only [hf, Bool.false_eq_true, if_false, List.find?_eq_none]
          intro s hs
          simp only [Bool.and_eq_true, bne_iff_ne, beq_iff_eq, not_and]
          intro _
          exact hname n hu s hs
  have hmap : snapshots.map (fun (s : Snapshot) =>
      if s.id == id then applyUpdates s u now else s) = snapshots := by
    apply map_fixes_of_forall
    intro s hs
    have : (s.id == id) = false := beq_eq_false_iff_ne.mpr (hid s hs)
    simp [this]
  unfold updateSnapshotRun
  rw [hdup, hmap]
  exact ⟨rfl, rfl, rfl⟩

/-- Witness for the amended C2 theorem at a concrete store and unknown
id. -/
theorem C2_witness :
    (updateSnapshotRun
        [{ id := "a", name := "Drums", trackStates := []
           createdAt := "t0", updatedAt := none }]
        "b" { name := some "Bass", trackStates := none } "t1").thrown =
        none := by
  refine (C2_updateSnapshot_unknown_id_noop _ _ _ _ ?_ ?_).1
  · intro s hs
    rw [List.mem_singleton] at hs
    subst hs
    decide
  · intro n hn s hs
    rw [List.mem_singleton] at hs
    subst hs
    cases hn
    decide

/-- Witness for C3 at a concrete store: an existing snapshot named
"Drums" blocks creating a snapshot named "drums". -/
theorem C3_witness :
    (∃ s ∈ [({ id := "a", name := "Drums", trackStates := []
               createdAt := "t0", updatedAt := none } : Snapshot)],
        jsToLower s.name = jsToLower "drums") ∧
      (createSnapshotRun
        [{ id := "a", name := "Drums", trackStates := []
           createdAt := "t0", updatedAt := none }]
        { name := "drums", trackStates := [] } "b" "t1").store =
        [{ id := "a", name := "Drums", trackStates := []
           createdAt := "t0", updatedAt := none }] := by
  refine ⟨⟨_, List.mem_singleton.mpr rfl, by decide⟩, ?_⟩
  exact (C3_createSnapshot_duplicate_rejected _ _ _ _
    ⟨_, List.mem_singleton.mpr rfl, by decide⟩).2.1


/-- C9: renaming a snapshot to its own current name (in any letter case)
never throws a duplicate-name error, provided the store satisfies the
data-model invariant that snapshot names are case-insensitively unique
(phrased locally: every stored snapshot sharing the renamed snapshot's
lowercased name has its id). Moreover — unconditionally, for arbitrary
inputs — a duplicate-name error is thrown only when the supplied new name
collides case-insensitively with a DIFFERENT snapshot's name. -/
theorem C9_rename_self_never_duplicate (snapshots : List Snapshot)
    (id n : String) (s : Snapshot) (u : SnapshotUpdates) (now : String)
    (hs : s ∈ snapshots) (hid : s.id = id) (hu : u.name = some n)
    (hn : jsToLower n = jsToLower s.name)
    (huniq : ∀ t ∈ snapshots, jsToLower t.name = jsToLower s.name → t.id = s.id) :
    (updateSnapshotRun snapshots id u now).thrown = none ∧
      ∀ (snaps2 : List Snapshot) (id2 : String) (u2 : SnapshotUpdates)
        (now2 : String),
        (updateSnapshotRun snaps2 id2 u2 now2).thrown ≠ none →
        ∃ m, u2.name = some m ∧
          ∃ t ∈ snaps2, t.id ≠ id2 ∧ jsToLower t.name = jsToLower m := by
  constructor
  · have hdup : (match u.name with
        | some m =>
            if m == "" then none
            else snapshots.find? (fun (t : Snapshot) =>
              t.id != id && jsToLower t.name == jsToLower m)
        | none => none) = (none : Option Snapshot) := by
      rw [hu]
      by_cases hempty : n == ""
      · simp [hempty]
      · have hf : (n == "") = false := by simpa using hempty
        simp only [hf, Bool.false_eq_true, if_false, List.find?_eq_none]
        intro t ht
        simp only [Bool.and_eq_true, bne_iff_ne, beq_iff_eq, not_and]
        intro htid hlow
        rw [hn] at hlow
        exact htid ((huniq t ht hlow).trans hid)
    unfold updateSnapshotRun
    rw [hdup]
  · intro snaps2 id2 u2 now2 hthrown
    unfold updateSnapshotRun at hthrown
    cases hu2 : u2.name with
    | none => rw [hu2] at hthrown; simp at hthrown
    | some m =>
        rw [hu2] at hthrown
        by_cases hempty : m == ""
        · simp [hempty] at hthrown
        · have hf : (m == "") = false := by simpa using hempty
          simp only [hf, Bool.false_eq_true, if_false] at hthrown
          cases hfind : snaps2.find? (fun (t : Snapshot) =>
              t.id != id2 && jsToLower t.name == jsToLower m) with
          | none => rw [hfind] at hthrown; simp at hthrown
          | some t =>
              have hmem := List.mem_of_find?_eq_some hfind
              have hp := List.find?_some hfind
              simp only [Bool.and_eq_true, bne_iff_ne, beq_iff_eq] at hp
              exact ⟨m, rfl, t, hmem, hp.1, hp.2⟩

/-- Witness for C9: renaming the sole snapshot "Drums" to "DRUMS" throws
nothing. -/
theorem C9_witness :
    (updateSnapshotRun
        [{ id := "a", name := "Drums", trackStates := []
           createdAt := "t0", updatedAt := none }]
        "a" { name := some "DRUMS", trackStates := none } "t1").thrown =
        none := by
  refine (C9_rename_self_never_duplicate _ "a" "DRUMS"
    { id := "a", name := "Drums", trackStates := []
      createdAt := "t0", updatedAt := none }
    _ "t1" (List.mem_singleton.mpr rfl) rfl rfl (by decide) ?_).1
  intro t ht
  rw [List.mem_singleton] at ht
  subst ht
  intro _
  rfl

/-- C10: every snapshot returned by a successful `createSnapshot` call has
`updatedAt` already populated and equal to its `createdAt` timestamp (both
are the single `now` value taken at creation). -/
theorem C10_createSnapshot_sets_updatedAt (snapshots : List Snapshot)
    (d : SnapshotData) (freshId now : String) (s : Snapshot)
    (h : (createSnapshotRun snapshots d freshId now).created = some s) :
    s.updatedAt = some s.createdAt ∧ s.createdAt = now := by
  unfold createSnapshotRun at h
  cases hfind : snapshots.find? (fun t => jsToLower t.name == jsToLower d.name) with
  | some t => rw [hfind] at h; simp at h
  | none =>
      rw [hfind] at h
      simp only [Option.some.injEq] at h
      subst h
      exact ⟨rfl, rfl⟩

/-- Witness for C10: creating "Drums" in an empty store yields a snapshot
whose `updatedAt` equals its `createdAt`. -/
theorem C10_witness :
    ∃ s, (createSnapshotRun [] { name := "Drums", trackStates := [] }
        "a" "t0").created = some s ∧ s.updatedAt = some s.createdAt := by
  refine ⟨{ id := "a", name := "Drums", trackStates := []
            createdAt := "t0", updatedAt := some "t0" }, rfl, ?_⟩
  exact (C10_createSnapshot_sets_updatedAt []
    { name := "Drums", trackStates := [] } "a" "t0"
    { id := "a", name := "Drums", trackStates := []
      createdAt := "t0", updatedAt := some "t0" } rfl).1


/-- C4 counterexample: the preset duplicate check is NOT the snapshots'
case-insensitive rule. "Mix" and "mix" differ only in letter case, yet with
a stored preset named "Mix" the check `isNameExists "mix"` reports no
collision. -/
theorem C4_counterexample :
    jsToLower "Mix" = jsToLower "mix" ∧ ("Mix" : String) ≠ "mix" ∧
      isNameExists
        [{ id := "1", name := "Mix", file_format := "wav"
           mix_source_name := "Out", mix_source_type := "Bus"
           createdAt := "t0", updatedAt := none }] "mix" none = false := by
  refine ⟨by decide, by decide, rfl⟩

/-- C4 (amended): preset name-uniqueness uses exact, case-sensitive string
equality: `isNameExists` reports a collision exactly when some stored
preset bears EXACTLY the queried name and its id is not the excluded one —
so names differing only in letter case are not duplicates, unlike the
snapshots' case-insensitive rule. -/
theorem C4_isNameExists_case_sensitive (presets : List ExportPreset)
    (name : String) (excludeId : Option String) :
    isNameExists presets name excludeId = true ↔
      ∃ p ∈ presets, p.name = name ∧ some p.id ≠ excludeId := by
  unfold isNameExists
  rw [List.any_eq_true]
  simp

/-- C8: for every requested page `page ≥ 1`, `getPaginatedPresets` reports
`totalCount` = the store size, `totalPages` = ⌈totalCount / pageSize⌉
(characterized by the two inequalities bounding `pageSize * totalPages`),
and the returned slice holds exactly the stored presets at indices
`(page-1)*pageSize + i` for `i < pageSize`; in particular, a 7-preset store
at page 3 yields exactly 1 preset with `totalPages` 3 and `totalCount` 7. -/
theorem C8_paginated_presets (allPresets : List ExportPreset) (page : Nat)
    (hpage : 1 ≤ page) :
    (getPaginatedPresets allPresets page).totalCount = allPresets.length ∧
      allPresets.length ≤
        PRESETS_PER_PAGE * (getPaginatedPresets allPresets page).totalPages ∧
      PRESETS_PER_PAGE * (getPaginatedPresets allPresets page).totalPages <
        allPresets.length + PRESETS_PER_PAGE ∧
      (∀ i, i < PRESETS_PER_PAGE →
        ((getPaginatedPresets allPresets page).presets)[i]? =
          allPresets[(page - 1) * PRESETS_PER_PAGE + i]?) ∧
      (allPresets.length = 7 → page = 3 →
        (getPaginatedPresets allPresets page).presets.length = 1 ∧
          (getPaginatedPresets allPresets page).totalPages = 3 ∧
          (getPaginatedPresets allPresets page).totalCount = 7) := by
  have hconst : PRESETS_PER_PAGE = 3 := rfl
  unfold getPaginatedPresets
  refine ⟨rfl, ?_, ?_, ?_, ?_⟩
  · dsimp only
    rw [hconst]
    have hdm := Nat.div_add_mod (allPresets.length + 3 - 1) 3
    have hmod := Nat.mod_lt (allPresets.length + 3 - 1) (show 0 < 3 by norm_num)
    omega
  · dsimp only
    rw [hconst]
    have hdm := Nat.div_add_mod (allPresets.length + 3 - 1) 3
    have hmod := Nat.mod_lt (allPresets.length + 3 - 1) (show 0 < 3 by norm_num)
    omega
  · intro i hi
    dsimp only
    rw [List.getElem?_take, if_pos hi, List.getElem?_drop, Nat.add_comm]
  · intro h7 hp3
    subst hp3
    refine ⟨?_, ?_, h7⟩
    · simp [List.length_take, List.length_drop, h7, hconst]
    · dsimp only
      rw [hconst, h7]

/-- Witness for C8: a concrete 7-preset store at page 3. -/
theorem C8_witness :
    (getPaginatedPresets
        (List.replicate 7
          { id := "p", name := "p", file_format := "wav"
            mix_source_name := "Out", mix_source_type := "Bus"
            createdAt := "t0", updatedAt := none }) 3).presets.length = 1 ∧
      (getPaginatedPresets
        (List.replicate 7
          { id := "p", name := "p", file_format := "wav"
            mix_source_name := "Out", mix_source_type := "Bus"
            createdAt := "t0", updatedAt := none }) 3).totalPages = 3 := by
  have h := (C8_paginated_presets
    (List.replicate 7
      { id := "p", name := "p", file_format := "wav"
        mix_source_name := "Out", mix_source_type := "Bus"
        createdAt := "t0", updatedAt := none }) 3 (by norm_num)).2.2.2.2
    (by simp) rfl
  exact ⟨h.1, h.2.1⟩

/-- C7: importing a two-entry document holding one structurally valid entry
and one entry whose `mix_source_type` is unrecognized (in either order)
reports `imported = 1` with a single error naming the invalid entry's
index, and appends to the existing collection exactly one new preset — the
valid entry materialized with the freshly generated id `genIds 0` (the id
carried by the document is discarded) and the fresh creation timestamp. -/
theorem C7_import_one_valid_one_invalid (a b : RawPreset)
    (existing : List ExportPreset) (genIds : Nat → String) (now : String)
    (ha : validatePreset a = true)
    (hb : mixSourceTypeValues.contains b.mix_source_type = false) :
    (importPresetsFromList [a, b] existing genIds now).imported = 1 ∧
      (importPresetsFromList [a, b] existing genIds now).errors =
        ["Invalid preset at index 1"] ∧
      (importPresetsFromList [a, b] existing genIds now).store =
        existing ++ [materializePreset a (genIds 0) now] ∧
      (importPresetsFromList [a, b] existing genIds now).success = true ∧
      (materializePreset a (genIds 0) now).id = genIds 0 ∧
      (materializePreset a (genIds 0) now).createdAt = now ∧
      (importPresetsFromList [b, a] existing genIds now).imported = 1 ∧
      (importPresetsFromList [b, a] existing genIds now).errors =
        ["Invalid preset at index 0"] ∧
      (importPresetsFromList [b, a] existing genIds now).store =
        existing ++ [materializePreset a (genIds 0) now] := by
  have hvb : validatePreset b = false := by
    unfold validatePreset
    rw [hb]
    simp
  refine ⟨?_, ?_, ?_, ?_, rfl, rfl, ?_, ?_, ?_⟩ <;>
    simp [importPresetsFromList, importScan, ha, hvb] <;> rfl

/-- Witness for C7 at concrete entries: "P1" is valid, the other entry's
`mix_source_type` "Garbage" is unrecognized. -/
theorem C7_witness :
    (importPresetsFromList
        [{ id := "old1", name := some "P1", file_format := "wav"
           mix_source_name := some "Out", mix_source_type := "Bus"
           updatedAt := none },
         { id := "old2", name := some "P2", file_format := "wav"
           mix_source_name := some "Out", mix_source_type := "Garbage"
           updatedAt := none }]
        [] (fun k => "fresh" ++ toString k) "t1").imported = 1 := by
  exact (C7_import_one_valid_one_invalid _ _ [] _ "t1" (by decide)
    (by decide)).1


/-- C5: whenever the selected snapshot list is empty, or `output_path` is
blank, or `mix_source_name` is blank, `startExport` (the same validation
prefix in both export components) reports a validation error immediately
and execution never reaches the `apiService.startExport` network call. -/
theorem C5_startExport_validation (snaps : List Snapshot)
    (settings : ExportSettings)
    (h : snaps = [] ∨ jsTrim settings.output_path = "" ∨
      jsTrim settings.mix_source_name = "") :
    (∃ msg, startExportPre snaps settings =
        StartExportStep.validationFailure msg) ∧
      ∀ sn st, startExportPre snaps settings ≠
        StartExportStep.requestSent sn st := by
  unfold startExportPre
  by_cases h0 : snaps.length = 0
  · rw [if_pos h0]
    exact ⟨⟨_, rfl⟩, fun sn st hc => StartExportStep.noConfusion hc⟩
  · rw [if_neg h0]
    have hsnaps : snaps ≠ [] := by
      intro hnil
      exact h0 (by rw [hnil]; rfl)
    have h' : jsTrim settings.output_path = "" ∨
        jsTrim settings.mix_source_name = "" := by
      rcases h with h | h | h
      · exact absurd h hsnaps
      · exact Or.inl h
      · exact Or.inr h
    by_cases h1 : jsTrim settings.output_path = ""
    · rw [if_pos (beq_iff_eq.mpr h1)]
      exact ⟨⟨_, rfl⟩, fun sn st hc => StartExportStep.noConfusion hc⟩
    · rw [if_neg (by simpa using h1)]
      have h2 : jsTrim settings.mix_source_name = "" := by
        rcases h' with h' | h'
        · exact absurd h' h1
        · exact h'
      rw [if_pos (beq_iff_eq.mpr h2)]
      exact ⟨⟨_, rfl⟩, fun sn st hc => StartExportStep.noConfusion hc⟩

/-- Witness for C5: a blank output path (and no other violation) yields a
validation failure with no request sent. -/
theorem C5_witness :
    ∃ msg, startExportPre
        [{ id := "a", name := "Drums", trackStates := []
           createdAt := "t0", updatedAt := none }]
        { file_format := "wav", mix_source_name := "Out"
          mix_source_type := "Bus", online_export := false
          file_prefix := "P_", output_path := "   " } =
      StartExportStep.validationFailure msg := by
  exact (C5_startExport_validation _ _ (Or.inr (Or.inl (by decide)))).1

/-- C6 counterexample: in the ExportDialog poller a status outside the six
known values falls through every branch. With status "weird" arriving
while exporting, no error at all is surfaced and `isExporting` remains
true — the claim demands the error "unknown export status: weird" and the
orchestration no longer reported as exporting. (Polling does stop: nothing
is scheduled.) -/
theorem C6_counterexample :
    (dialogResponseArrives
        { isExporting := true, error := none, success := false
          exportProgress := none, pollTimer := false, inFlight := true }
        { task_id := "t1", status := "weird", progress := 50
          current_snapshot := 1, total_snapshots := 2
          current_snapshot_name := "A", created_at := "t0"
          result := none }).error = none ∧
      (dialogResponseArrives
        { isExporting := true, error := none, success := false
          exportProgress := none, pollTimer := false, inFlight := true }
        { task_id := "t1", status := "weird", progress := 50
          current_snapshot := 1, total_snapshots := 2
          current_snapshot_name := "A", created_at := "t0"
          result := none }).isExporting = true ∧
      (dialogResponseArrives
        { isExporting := true, error := none, success := false
          exportProgress := none, pollTimer := false, inFlight := true }
        { task_id := "t1", status := "weird", progress := 50
          current_snapshot := 1, total_snapshots := 2
          current_snapshot_name := "A", created_at := "t0"
          result := none }).pollTimer = false := by
  refine ⟨by decide, by decide, by decide⟩

/-- C6 (amended): on a status outside {pending, running, completed,
completed_with_errors, failed, cancelled}, the ExportPanel poller stops
(schedules nothing), surfaces the error "Unknown export status: <value>"
(capital U in the source) and clears `isExporting`; the ExportDialog
poller stops scheduling as well but surfaces NO error and leaves
`isExporting` (and `error`) exactly as they were. -/
theorem C6_unknown_status_behavior (st : ExportUiState) (d : ExportProgress)
    (h1 : d.status ≠ "completed") (h2 : d.status ≠ "failed")
    (h3 : d.status ≠ "completed_with_errors") (h4 : d.status ≠ "running")
    (h5 : d.status ≠ "pending") (h6 : d.status ≠ "cancelled") :
    (panelHandleStatus st d).error =
        some ("Unknown export status: " ++ d.status) ∧
      (panelHandleStatus st d).isExporting = false ∧
      (panelHandleStatus st d).pollTimer = st.pollTimer ∧
      (dialogHandleStatus st d).error = st.error ∧
      (dialogHandleStatus st d).isExporting = st.isExporting ∧
      (dialogHandleStatus st d).pollTimer = st.pollTimer := by
  have b1 : (d.status == "completed") = false := beq_eq_false_iff_ne.mpr h1
  have b2 : (d.status == "failed") = false := beq_eq_false_iff_ne.mpr h2
  have b3 : (d.status == "completed_with_errors") = false :=
    beq_eq_false_iff_ne.mpr h3
  have b4 : (d.status == "running") = false := beq_eq_false_iff_ne.mpr h4
  have b5 : (d.status == "pending") = false := beq_eq_false_iff_ne.mpr h5
  have b6 : (d.status == "cancelled") = false := beq_eq_false_iff_ne.mpr h6
  unfold panelHandleStatus dialogHandleStatus
  simp [b1, b2, b3, b4, b5, b6]

/-- Witness for the amended C6 theorem at the concrete status "weird". -/
theorem C6_witness :
    (panelHandleStatus
        { isExporting := true, error := none, success := false
          exportProgress := none, pollTimer := false, inFlight := true }
        { task_id := "t1", status := "weird", progress := 50
          current_snapshot := 1, total_snapshots := 2
          current_snapshot_name := "A", created_at := "t0"
          result := none }).error =
      some "Unknown export status: weird" := by
  exact (C6_unknown_status_behavior _ _ (by decide) (by decide) (by decide)
    (by decide) (by decide) (by decide)).1

/-- C1: evaluation of the models at the failing scenario. ExportPanel:
with one status request in flight, `stopPolling` sets the manually-stopped
state and clears the timer — but the late response reporting `running`
overwrites the local task snapshot with `running` and schedules a new
poll, and that timer firing issues a further `getExportStatus` call after
the cancel. ExportDialog: `stopExport` clears no timer, so the poll that
was already scheduled at cancel time still fires and issues a further
`getExportStatus` call. Both refute "no further status polls after cancel"
and the panel also loses the manually-stopped terminal task status. -/
theorem C1_cancel_does_not_stop_polls :
    ((panelStopPolling
        { isExporting := true, error := none, success := false
          exportProgress := some (ExportProgress.mk "t1" "running" 40 1 2 "A" "t0" none)
          pollTimer := false, inFlight := true }).1.error =
        some "Export manually stopped") ∧
      ((panelStopPolling
        { isExporting := true, error := none, success := false
          exportProgress := some (ExportProgress.mk "t1" "running" 40 1 2 "A" "t0" none)
          pollTimer := false, inFlight := true }).1.pollTimer = false) ∧
      ((panelResponseArrives (panelStopPolling
        { isExporting := true, error := none, success := false
          exportProgress := some (ExportProgress.mk "t1" "running" 40 1 2 "A" "t0" none)
          pollTimer := false, inFlight := true }).1
        (ExportProgress.mk "t1" "running" 70 2 2 "B" "t0" none)).pollTimer = true) ∧
      ((panelResponseArrives (panelStopPolling
        { isExporting := true, error := none, success := false
          exportProgress := some (ExportProgress.mk "t1" "running" 40 1 2 "A" "t0" none)
          pollTimer := false, inFlight := true }).1
        (ExportProgress.mk "t1" "running" 70 2 2 "B" "t0" none)).exportProgress =
        some (ExportProgress.mk "t1" "running" 70 2 2 "B" "t0" none)) ∧
      ((timerFires (panelResponseArrives (panelStopPolling
        { isExporting := true, error := none, success := false
          exportProgress := some (ExportProgress.mk "t1" "running" 40 1 2 "A" "t0" none)
          pollTimer := false, inFlight := true }).1
        (ExportProgress.mk "t1" "running" 70 2 2 "B" "t0" none))).2 = true) ∧
      ((dialogStopExport
        { isExporting := true, error := none, success := false
          exportProgress := some (ExportProgress.mk "t1" "running" 40 1 2 "A" "t0" none)
          pollTimer := true, inFlight := false }).1.pollTimer = true) ∧
      ((timerFires (dialogStopExport
        { isExporting := true, error := none, success := false
          exportProgress := some (ExportProgress.mk "t1" "running" 40 1 2 "A" "t0" none)
          pollTimer := true, inFlight := false }).1).2 = true) := by
  refine ⟨by decide, by decide, by decide, by decide, by decide, by decide,
    by decide⟩

end Track2Do
